import Mathlib

/-!
Shallow embedding of the scanner core (indicator engine, SQLite-backed store,
cache coordinator, scan orchestration) from `src/`, with theorems checking the
natural-language specification against it.

Conventions:
* Prices and indicator values are rationals (`ℚ`); an `Option ℚ` value of
  `none` models a Python `None` or a pandas `NaN` wherever the source treats
  the two alike (`pd.isna`, `dropna`).
* Trading dates and timestamps are integers counting days.
* Fallible operations (SQLite writes that can violate a UNIQUE constraint,
  the per-symbol scan body wrapped in `try/except`) return `Except String _`.
-/

/-! ### Configuration constants, from `config/settings.py` -/

def RSI_WINDOW : Nat := 14
def ATR_WINDOW : Nat := 14
def RSI_LOOKBACK_DAYS : Nat := 7
def RSI_HIGH_THRESHOLD : ℚ := 90
def RSI_LOW_THRESHOLD : ℚ := 10
def OVEREXTENDED_LOOKBACK_DAYS : Nat := 5
def OVEREXTENDED_ATR_MULTIPLIER : ℚ := 5
def HIST_DAYS : Int := 30
def MAX_CACHE_AGE_DAYS : Int := 1

/-! ### Data model -/

/-- One OHLCV daily bar, a row of the input DataFrame. -/
structure Bar where
  date : Int
  open_ : ℚ
  high : ℚ
  low : ℚ
  close : ℚ
  volume : Int
  deriving Repr, DecidableEq

/-- `min` of a pandas Series: `none` on an empty series (pandas would yield
NaN there). -/
def listMin {α : Type} [LinearOrder α] : List α → Option α
  | [] => none
  | x :: xs => some (xs.foldl min x)

/-- `max` of a pandas Series: `none` on an empty series. -/
def listMax {α : Type} [LinearOrder α] : List α → Option α
  | [] => none
  | x :: xs => some (xs.foldl max x)

/-! ### Indicator engine, from `src/indicators.py` -/

/-- The result dict built by `check_overextended`. -/
structure OverextendedResult where
  is_overextended : Bool
  swing_low : Option ℚ
  swing_high : Option ℚ
  atr : Option ℚ
  atr_contribution : Option ℚ
  threshold : Option ℚ
  current_price : Option ℚ
  distance_from_threshold : Option ℚ
  distance_pct : Option ℚ
  proximity_pct : Option ℚ
  price_range : Option ℚ
  calculation_valid : Bool
  deriving Repr, DecidableEq

/-- The initial result structure of `check_overextended`: everything null and
invalid, except `atr`, which echoes the `atr_value` argument. -/
def emptyResult (atr_value : Option ℚ) : OverextendedResult :=
  { is_overextended := false
    swing_low := none
    swing_high := none
    atr := atr_value
    atr_contribution := none
    threshold := none
    current_price := none
    distance_from_threshold := none
    distance_pct := none
    proximity_pct := none
    price_range := none
    calculation_valid := false }

/-- `df.iloc[-(lookback_days + 1):]`: the last `lookback_days + 1` bars. -/
def recentData (df : List Bar) (lookback_days : Nat) : List Bar :=
  df.drop (df.length - (lookback_days + 1))

/-- `recent_data.iloc[:-1]`: the previous `lookback_days` bars, excluding the
current (most recent) bar. -/
def prevDaysData (df : List Bar) (lookback_days : Nat) : List Bar :=
  (recentData df lookback_days).dropLast

/-- `check_overextended(df, atr_value, lookback_days, atr_multiplier)` from
`src/indicators.py`. `atr_value = none` models a Python `None` or NaN ATR
(the source tests `atr_value is None or pd.isna(atr_value)`). The branch in
which `prev_days_data` is empty (only reachable with `lookback_days = 0`,
where pandas would propagate NaN) is modelled as the invalid result; every
theorem below assumes `1 ≤ lookback_days`. -/
def check_overextended (df : List Bar) (atr_value : Option ℚ)
    (lookback_days : Nat) (atr_multiplier : ℚ) : OverextendedResult :=
  if df.length < lookback_days + 1 then emptyResult atr_value
  else
    match listMin ((prevDaysData df lookback_days).map Bar.low),
          listMax ((prevDaysData df lookback_days).map Bar.high),
          (df.map Bar.close).getLast? with
    | some swing_low, some swing_high, some current_price =>
      match atr_value with
      | none =>
        { emptyResult none with
          swing_low := some swing_low
          swing_high := some swing_high
          current_price := some current_price
          price_range := some (swing_high - swing_low) }
      | some atr =>
        let atr_contribution := atr * atr_multiplier
        let overextended_threshold := swing_low + atr_contribution
        let distance_from_threshold := current_price - overextended_threshold
        let distance_pct := distance_from_threshold / overextended_threshold * 100
        let proximity_pct :=
          if overextended_threshold > swing_low then
            max 0 (min 100
              ((current_price - swing_low) / (overextended_threshold - swing_low) * 100))
          else 0
        { is_overextended := decide (current_price > overextended_threshold)
          swing_low := some swing_low
          swing_high := some swing_high
          atr := some atr
          atr_contribution := some atr_contribution
          threshold := some overextended_threshold
          current_price := some current_price
          distance_from_threshold := some distance_from_threshold
          distance_pct := some distance_pct
          proximity_pct := some proximity_pct
          price_range := some (swing_high - swing_low)
          calculation_valid := true }
    | _, _, _ => emptyResult atr_value

/-- `Series.dropna()`: keep the defined samples. -/
def dropNa (s : List (Option ℚ)) : List ℚ :=
  s.filterMap id

/-- `check_rsi_extremes(rsi_series, lookback_days, high_threshold,
low_threshold)` from `src/indicators.py`, returning
`(hit_high, hit_low, max_rsi, min_rsi)`. The input series may contain
undefined (NaN) samples, modelled as `none`; the initial length guard counts
them, `dropna` then removes them. `iloc[-lookback_days:]` takes the whole
series when `lookback_days = 0`, hence the case split. -/
def check_rsi_extremes (rsi_series : List (Option ℚ)) (lookback_days : Nat)
    (high_threshold low_threshold : ℚ) : Bool × Bool × Option ℚ × Option ℚ :=
  if rsi_series.length < lookback_days then (false, false, none, none)
  else
    let valid := dropNa rsi_series
    let recent_rsi :=
      if lookback_days = 0 then valid else valid.drop (valid.length - lookback_days)
    match listMax recent_rsi, listMin recent_rsi with
    | some max_rsi, some min_rsi =>
      (decide (max_rsi ≥ high_threshold), decide (min_rsi ≤ low_threshold),
       some max_rsi, some min_rsi)
    | _, _ => (false, false, none, none)

/-! ### Persistent store, from `src/database.py` -/

/-- A row of the `price_data` table (UNIQUE on `(symbol, date)`). -/
structure PriceRow where
  symbol : String
  date : Int
  open_ : ℚ
  high : ℚ
  low : ℚ
  close : ℚ
  volume : Int
  deriving Repr, DecidableEq

/-- A row of the `cache_metadata` table (PRIMARY KEY `symbol`). -/
structure MetaRow where
  symbol : String
  last_updated : Int
  last_date : Option Int
  record_count : Nat
  deriving Repr, DecidableEq

/-- The SQLite database state the claims touch: the `price_data` and
`cache_metadata` tables. -/
structure Store where
  price_data : List PriceRow
  cache_metadata : List MetaRow
  deriving Repr, DecidableEq

def emptyStore : Store := ⟨[], []⟩

/-- Does the table already hold a row with this `(symbol, date)` key? -/
def hasKey (table : List PriceRow) (sym : String) (d : Int) : Bool :=
  table.any (fun r => r.symbol == sym && r.date == d)

/-- Row-by-row effect of the single multi-row INSERT issued by
`df.to_sql('price_data', ..., if_exists='append')`: a plain INSERT (no
`OR REPLACE`), so any `(symbol, date)` collision — with the table or within
the batch — raises `sqlite3.IntegrityError` and the statement inserts
nothing. -/
def insertRows : List PriceRow → List PriceRow → Except String (List PriceRow)
  | table, [] => .ok table
  | table, r :: rs =>
    if hasKey table r.symbol r.date then
      .error "UNIQUE constraint failed: price_data.symbol, price_data.date"
    else insertRows (table ++ [r]) rs

/-- `INSERT OR REPLACE INTO cache_metadata`: `symbol` is the primary key, so
an existing row for the symbol is replaced. -/
def upsertMeta (ms : List MetaRow) (m : MetaRow) : List MetaRow :=
  ms.filter (fun x => !(x.symbol == m.symbol)) ++ [m]

/-- `ScannerDatabase.save_price_data(symbol, df)` from `src/database.py`,
called at time `now`. An empty frame returns immediately. Otherwise the bars
are appended to `price_data` (plain INSERT against the UNIQUE constraint; a
duplicate key raises and the transaction leaves the store unchanged), then
`cache_metadata` is upserted with `last_updated = now`,
`last_date = df['date'].max()` and `record_count = len(df)` — both computed
from the submitted frame alone. -/
def save_price_data (store : Store) (symbol : String) (df : List Bar)
    (now : Int) : Except String Store :=
  if df.isEmpty then .ok store
  else do
    let rows := df.map (fun b =>
      { symbol := symbol, date := b.date, open_ := b.open_, high := b.high,
        low := b.low, close := b.close, volume := b.volume : PriceRow })
    let price_data ← insertRows store.price_data rows
    let md : MetaRow :=
      { symbol := symbol, last_updated := now,
        last_date := listMax (df.map Bar.date), record_count := df.length }
    .ok { price_data := price_data,
          cache_metadata := upsertMeta store.cache_metadata md }

/-- Insert a price row into a list kept ascending by date. -/
def insertSorted (r : PriceRow) : List PriceRow → List PriceRow
  | [] => [r]
  | x :: xs => if r.date ≤ x.date then r :: x :: xs else x :: insertSorted r xs

/-- `ORDER BY date` over the selected rows. -/
def sortByDate (l : List PriceRow) : List PriceRow :=
  l.foldr insertSorted []

/-- `ScannerDatabase.get_cached_price_data(symbol, start_date, end_date)`:
`SELECT ... WHERE symbol = ? AND date >= ? AND date <= ? ORDER BY date`.
The source returns `None` for an empty frame; callers only test emptiness,
modelled here by the empty list. -/
def get_cached_price_data (store : Store) (symbol : String)
    (start_date end_date : Int) : List PriceRow :=
  sortByDate (store.price_data.filter
    (fun r => r.symbol == symbol && start_date ≤ r.date && r.date ≤ end_date))

/-- `ScannerDatabase.is_data_fresh(symbol)` at time `now`: true iff a
`cache_metadata` row exists and its age in days is below
`MAX_CACHE_AGE_DAYS`. -/
def is_data_fresh (store : Store) (symbol : String) (now : Int) : Bool :=
  match store.cache_metadata.find? (fun m => m.symbol == symbol) with
  | none => false
  | some m => decide (now - m.last_updated < MAX_CACHE_AGE_DAYS)

/-- `ScannerDatabase.get_missing_date_range(symbol, required_start,
required_end)` from `src/database.py`: reads `MIN(date)`/`MAX(date)` of the
symbol's stored bars; returns `none` when the cached coverage contains the
required window, the full required window when nothing is stored, and
otherwise a single `(fetch_start, fetch_end)` pair adjusted at each missing
edge. -/
def get_missing_date_range (store : Store) (symbol : String)
    (required_start required_end : Int) : Option (Int × Int) :=
  let dates := (store.price_data.filter (fun r => r.symbol == symbol)).map PriceRow.date
  match listMin dates, listMax dates with
  | some cached_start, some cached_end =>
    if cached_start ≤ required_start && cached_end ≥ required_end then
      none
    else
      let fetch_start :=
        if cached_end < required_end then cached_end + 1 else required_start
      let fetch_end :=
        if cached_start > required_start then cached_start - 1 else required_end
      some (fetch_start, fetch_end)
  | _, _ => some (required_start, required_end)

/-! ### Cache coordinator, from `src/cache_manager.py` -/

/-- `CacheManager.get_required_data_range(hist_days)` at time `now`. -/
def get_required_data_range (now : Int) (hist_days : Int := HIST_DAYS) :
    Int × Int :=
  (now - hist_days, now)

/-- `CacheManager.should_fetch_data(symbol)` at time `now`: fetch when the
cache is stale, or when the cached bar count in the required window is below
the hardcoded 20 ("Need at least 20 days for RSI"). -/
def should_fetch_data (store : Store) (symbol : String) (now : Int) : Bool :=
  if !is_data_fresh store symbol now then true
  else
    let range := get_required_data_range now
    let cached_data := get_cached_price_data store symbol range.1 range.2
    if cached_data.isEmpty || cached_data.length < 20 then true
    else false

/-! ### Scan orchestration, from `src/scanner.py` -/

/-- The output of `compute_indicators(df)` as `scan_symbol` consumes it:
`(rsi_series, latest_rsi, latest_atr)`. The series and latest values are
`none` when the history is too short; `latest_atr = none` also models a NaN
latest ATR (which `check_overextended` treats via `pd.isna`). -/
structure IndicatorsOut where
  rsi_series : Option (List (Option ℚ))
  latest_rsi : Option ℚ
  latest_atr : Option ℚ
  deriving Repr, DecidableEq

/-- Outcomes of the fallible sub-steps inside `scan_symbol`'s `try` block:
the historical-data fetch, the indicator computation (delegating to the
external `ta` library), the two database writes, and the cache-status probe
for the `cached` field. `.error e` models the step raising an exception with
message `e`. -/
structure ScanEnv where
  fetch : Except String (List Bar)
  indicators : Except String IndicatorsOut
  save_indicators : Except String Unit
  save_scan_result : Except String Unit
  cached_flag : Bool
  deriving Repr

/-- The result dict `scan_symbol` returns. Keys that only the success branch
produces are `Option`-valued and `none` in the other branches (the source
dicts simply omit them there). -/
structure ScanRow where
  symbol : String
  status : String
  latest_rsi : Option ℚ
  latest_atr : Option ℚ
  hit_high : Bool
  hit_low : Bool
  max_rsi : Option ℚ
  min_rsi : Option ℚ
  is_overextended : Bool
  swing_low : Option ℚ
  swing_high : Option ℚ
  overextended_threshold : Option ℚ
  current_price : Option ℚ
  atr_contribution : Option ℚ
  distance_from_threshold : Option ℚ
  distance_pct : Option ℚ
  proximity_pct : Option ℚ
  price_range : Option ℚ
  data_points : Option Nat
  cached : Option Bool
  deriving Repr, DecidableEq

/-- The dict returned on `status = 'insufficient_data'` or
`status = 'calculation_failed'` or `status = f'error:{e}'`. -/
def failureRow (symbol status : String) : ScanRow :=
  { symbol := symbol, status := status
    latest_rsi := none, latest_atr := none
    hit_high := false, hit_low := false
    max_rsi := none, min_rsi := none
    is_overextended := false
    swing_low := none, swing_high := none
    overextended_threshold := none, current_price := none
    atr_contribution := none, distance_from_threshold := none
    distance_pct := none, proximity_pct := none, price_range := none
    data_points := none, cached := none }

/-- The dict returned when a step of the `try` block raised `e`. -/
def errorRow (symbol e : String) : ScanRow :=
  failureRow symbol ("error:" ++ e)

/-- Status-label construction in `scan_symbol`. -/
def scanStatus (hit_high hit_low is_overextended : Bool) : String :=
  let status := if hit_high then "RSI>=90" else "no_hit"
  let status :=
    if hit_low then
      (if status == "no_hit" then "RSI<=10" else status ++ ";RSI<=10")
    else status
  if is_overextended then
    (if status == "no_hit" then "overextended" else status ++ ";overextended")
  else status

/-- The body of `RSIScanner.scan_symbol`'s `try` block, with each fallible
sub-step drawn from `env`; propagates any step's exception. -/
def scan_symbol_body (symbol : String) (env : ScanEnv) : Except String ScanRow := do
  let df ← env.fetch
  if df.length < max RSI_WINDOW ATR_WINDOW + 1 then
    return failureRow symbol "insufficient_data"
  let ind ← env.indicators
  match ind.rsi_series, ind.latest_rsi with
  | some rsi_series, some latest_rsi =>
    let _ ← env.save_indicators
    let ext := check_rsi_extremes rsi_series RSI_LOOKBACK_DAYS
      RSI_HIGH_THRESHOLD RSI_LOW_THRESHOLD
    let ov := check_overextended df ind.latest_atr
      OVEREXTENDED_LOOKBACK_DAYS OVEREXTENDED_ATR_MULTIPLIER
    let status := scanStatus ext.1 ext.2.1 ov.is_overextended
    let _ ← env.save_scan_result
    return { symbol := symbol, status := status
             latest_rsi := some latest_rsi, latest_atr := ind.latest_atr
             hit_high := ext.1, hit_low := ext.2.1
             max_rsi := ext.2.2.1, min_rsi := ext.2.2.2
             is_overextended := ov.is_overextended
             swing_low := ov.swing_low, swing_high := ov.swing_high
             overextended_threshold := ov.threshold
             current_price := ov.current_price
             atr_contribution := ov.atr_contribution
             distance_from_threshold := ov.distance_from_threshold
             distance_pct := ov.distance_pct, proximity_pct := ov.proximity_pct
             price_range := ov.price_range
             data_points := some df.length
             cached := some env.cached_flag }
  | _, _ => return failureRow symbol "calculation_failed"

/-- `RSIScanner.scan_symbol(symbol)`: the whole body sits in a
`try/except Exception` whose handler returns a result dict with
`status = f'error:{e}'`; the function itself never raises. -/
def scan_symbol (symbol : String) (env : ScanEnv) : ScanRow :=
  match scan_symbol_body symbol env with
  | .ok r => r
  | .error e => errorRow symbol e

/-! ### Helper lemmas -/

theorem listMin_of_ne_nil {α : Type} [LinearOrder α] (l : List α) (h : l ≠ []) :
    ∃ x, listMin l = some x := by
  cases l with
  | nil => exact absurd rfl h
  | cons x xs => exact ⟨_, rfl⟩

theorem listMax_of_ne_nil {α : Type} [LinearOrder α] (l : List α) (h : l ≠ []) :
    ∃ x, listMax l = some x := by
  cases l with
  | nil => exact absurd rfl h
  | cons x xs => exact ⟨_, rfl⟩

theorem prevDaysData_length (df : List Bar) (lookback : Nat)
    (h : lookback + 1 ≤ df.length) :
    (prevDaysData df lookback).length = lookback := by
  simp only [prevDaysData, recentData, List.length_dropLast, List.length_drop]
  omega

/-- With at least `lookback + 1` bars and a positive lookback, the swing
window is nonempty and the series has a last close, so all three scrutinees
of `check_overextended`'s main match are defined. -/
theorem swing_fields_exist (df : List Bar) (lookback : Nat)
    (hlb : 1 ≤ lookback) (hlen : lookback + 1 ≤ df.length) :
    ∃ sl sh cp,
      listMin ((prevDaysData df lookback).map Bar.low) = some sl ∧
      listMax ((prevDaysData df lookback).map Bar.high) = some sh ∧
      (df.map Bar.close).getLast? = some cp := by
  have hprev : prevDaysData df lookback ≠ [] := by
    intro hnil
    have := prevDaysData_length df lookback hlen
    rw [hnil] at this
    simp at this
    omega
  have hdf : df.map Bar.close ≠ [] := by
    intro hnil
    have : df = [] := by
      cases df with
      | nil => rfl
      | cons a l => simp at hnil
    rw [this] at hlen
    simp at hlen
  have hlow : (prevDaysData df lookback).map Bar.low ≠ [] := by
    intro hnil
    exact hprev (List.map_eq_nil_iff.mp hnil)
  have hhigh : (prevDaysData df lookback).map Bar.high ≠ [] := by
    intro hnil
    exact hprev (List.map_eq_nil_iff.mp hnil)
  obtain ⟨sl, hsl⟩ := listMin_of_ne_nil _ hlow
  obtain ⟨sh, hsh⟩ := listMax_of_ne_nil _ hhigh
  exact ⟨sl, sh, (df.map Bar.close).getLast hdf, hsl, hsh,
    List.getLast?_eq_getLast_of_ne_nil hdf⟩

/-- Field-level description of `check_overextended` when the series is long
enough and the ATR is undefined. -/
theorem check_overextended_na (df : List Bar) (lookback : Nat) (mult : ℚ)
    (sl sh cp : ℚ) (hlen : lookback + 1 ≤ df.length)
    (hsl : listMin ((prevDaysData df lookback).map Bar.low) = some sl)
    (hsh : listMax ((prevDaysData df lookback).map Bar.high) = some sh)
    (hcp : (df.map Bar.close).getLast? = some cp) :
    check_overextended df none lookback mult =
      { emptyResult none with
        swing_low := some sl
        swing_high := some sh
        current_price := some cp
        price_range := some (sh - sl) } := by
  have hnot : ¬ df.length < lookback + 1 := by omega
  simp only [check_overextended, if_neg hnot, hsl, hsh, hcp]

/-- Field-level description of `check_overextended` when the series is long
enough and the ATR is defined. -/
theorem check_overextended_valid (df : List Bar) (atr : ℚ) (lookback : Nat)
    (mult : ℚ) (sl sh cp : ℚ) (hlen : lookback + 1 ≤ df.length)
    (hsl : listMin ((prevDaysData df lookback).map Bar.low) = some sl)
    (hsh : listMax ((prevDaysData df lookback).map Bar.high) = some sh)
    (hcp : (df.map Bar.close).getLast? = some cp) :
    check_overextended df (some atr) lookback mult =
      { is_overextended := decide (cp > sl + atr * mult)
        swing_low := some sl
        swing_high := some sh
        atr := some atr
        atr_contribution := some (atr * mult)
        threshold := some (sl + atr * mult)
        current_price := some cp
        distance_from_threshold := some (cp - (sl + atr * mult))
        distance_pct := some ((cp - (sl + atr * mult)) / (sl + atr * mult) * 100)
        proximity_pct := some
          (if sl + atr * mult > sl then
            max 0 (min 100 ((cp - sl) / (sl + atr * mult - sl) * 100))
          else 0)
        price_range := some (sh - sl)
        calculation_valid := true } := by
  have hnot : ¬ df.length < lookback + 1 := by omega
  simp only [check_overextended, if_neg hnot, hsl, hsh, hcp]

/-! ### Claim C1 — gap computation with both edges missing -/

/-- Stored history giving cached coverage `[day 10, day 40]` for `"SPY"`. -/
def c1Store : Store :=
  ⟨[⟨"SPY", 10, 1, 1, 1, 1, 0⟩, ⟨"SPY", 40, 1, 1, 1, 1, 0⟩], []⟩

/-- Claim C1: with cached coverage `[day10, day40]` and required window
`[day1, day50]`, both edges are missing; the specification requires two
disjoint gap ranges `[1, 9]` and `[41, 50]`, but `get_missing_date_range`
returns the single collapsed pair `(41, 9)` — an inverted range whose start
lies after its end, covering neither gap. -/
theorem c1_gap_both_edges_collapsed :
    get_missing_date_range c1Store "SPY" 1 50 = some (41, 9) ∧ (9 : Int) < 41 :=
  ⟨rfl, by decide⟩

/-! ### Claim C2 — idempotence of `save_price_data` -/

/-- A single daily bar for date 1. -/
def c2Bar : Bar := ⟨1, 10, 12, 9, 11, 100⟩

/-- Claim C2: `save_price_data` is not an idempotent merge. Submitting the
same one-bar set twice: the first call succeeds, the second raises
`sqlite3.IntegrityError` (the UNIQUE `(symbol, date)` constraint rejects the
plain INSERT that `to_sql(..., if_exists='append')` issues), leaving the
transaction rolled back instead of performing the no-op merge the source's
own comment ("Use INSERT OR REPLACE to handle duplicates") promises. -/
theorem c2_save_price_data_resubmit_raises :
    (save_price_data emptyStore "SPY" [c2Bar] 50).toOption.isSome = true ∧
    (save_price_data emptyStore "SPY" [c2Bar] 50).bind
        (fun s => save_price_data s "SPY" [c2Bar] 60) =
      .error "UNIQUE constraint failed: price_data.symbol, price_data.date" :=
  ⟨rfl, rfl⟩

/-! ### Claim C3 — freshness metadata after `save_price_data` -/

/-- All bars now stored for a symbol. -/
def symbolRows (s : Store) (sym : String) : List PriceRow :=
  s.price_data.filter (fun r => r.symbol == sym)

/-- A store already holding a bar for date 2, with matching metadata. -/
def c3Store : Store :=
  ⟨[⟨"SPY", 2, 1, 1, 1, 1, 0⟩], [⟨"SPY", 40, some 2, 1⟩]⟩

/-- A backfill batch containing only the older date 1. -/
def c3Bar : Bar := ⟨1, 1, 1, 1, 1, 0⟩

/-- The store after saving the backfill batch into `c3Store`. -/
def c3Store2 : Store :=
  ⟨[⟨"SPY", 2, 1, 1, 1, 1, 0⟩, ⟨"SPY", 1, 1, 1, 1, 1, 0⟩],
   [⟨"SPY", 70, some 1, 1⟩]⟩

/-- Claim C3 counterexample: backfilling the single older bar (date 1) into a
store that already holds a bar for date 2 succeeds, but the updated
`cache_metadata` row records `last_date = 1` and `record_count = 1` — from
the submitted batch alone — while the merged set for the instrument has
maximum date 2 and 2 stored bars. -/
theorem c3_metadata_counterexample :
    save_price_data c3Store "SPY" [c3Bar] 70 = .ok c3Store2 ∧
    c3Store2.cache_metadata = [⟨"SPY", 70, some 1, 1⟩] ∧
    listMax ((symbolRows c3Store2 "SPY").map PriceRow.date) = some 2 ∧
    (symbolRows c3Store2 "SPY").length = 2 ∧
    some (1 : Int) ≠ some (2 : Int) ∧ (1 : Nat) ≠ 2 :=
  ⟨rfl, rfl, rfl, rfl, by decide, by decide⟩

/-- The freshness row `save_price_data` writes is the first (and only) match
`find?` sees after the `INSERT OR REPLACE`. -/
theorem find?_upsertMeta (ms : List MetaRow) (m : MetaRow) :
    (upsertMeta ms m).find? (fun x => x.symbol == m.symbol) = some m := by
  unfold upsertMeta
  induction ms with
  | nil => simp
  | cons a as ih =>
    by_cases ha : a.symbol == m.symbol
    · simp [List.filter, ha, ih]
    · simp [List.filter, ha, ih]

/-- Binding an `Except` error short-circuits. -/
theorem except_bind_error {α β : Type} (e : String) (f : α → Except String β) :
    (do let x ← (Except.error e : Except String α); f x) = Except.error e :=
  rfl

/-- Binding a successful `Except` applies the continuation. -/
theorem except_bind_ok {α β : Type} (a : α) (f : α → Except String β) :
    (do let x ← (Except.ok a : Except String α); f x) = f a :=
  rfl

/-- Claim C3, amended: after every successful `save_price_data` call, the
instrument's `cache_metadata` row holds `last_updated = now`,
`last_date` equal to the maximum date of the **submitted batch** and
`record_count` equal to the size of the **submitted batch** — not the merged
set's maximum date and total stored count. -/
theorem c3_metadata_from_batch (store : Store) (symbol : String)
    (df : List Bar) (now : Int) (s : Store) (hdf : df ≠ [])
    (h : save_price_data store symbol df now = .ok s) :
    s.cache_metadata.find? (fun m => m.symbol == symbol) =
      some ⟨symbol, now, listMax (df.map Bar.date), df.length⟩ := by
  have hne : df.isEmpty = false := by
    simpa [List.isEmpty_iff] using hdf
  unfold save_price_data at h
  rw [hne] at h
  simp only [Bool.false_eq_true, if_false] at h
  cases hrows : insertRows store.price_data
      (df.map (fun b =>
        { symbol := symbol, date := b.date, open_ := b.open_, high := b.high,
          low := b.low, close := b.close, volume := b.volume : PriceRow })) with
  | error e =>
    rw [hrows, except_bind_error] at h
    exact Except.noConfusion h
  | ok price' =>
    rw [hrows, except_bind_ok] at h
    injection h with h2
    rw [← h2]
    simpa using find?_upsertMeta store.cache_metadata
      ⟨symbol, now, listMax (df.map Bar.date), df.length⟩

/-- The store produced by the witness call below. -/
def c3WitnessStore : Store :=
  ⟨[⟨"SPY", 1, 10, 12, 9, 11, 100⟩], [⟨"SPY", 50, some 1, 1⟩]⟩

/-- Witness for `c3_metadata_from_batch` at a concrete one-bar save. -/
theorem c3_metadata_from_batch_witness :
    c3WitnessStore.cache_metadata.find? (fun m => m.symbol == "SPY") =
      some ⟨"SPY", 50, listMax ([c2Bar].map Bar.date), [c2Bar].length⟩ :=
  c3_metadata_from_batch emptyStore "SPY" [c2Bar] 50 c3WitnessStore
    (by decide) rfl

/-! ### Claim C4 — behaviour on a non-positive threshold -/

/-- A bar whose low sits at `-100` (a negative-priced instrument, e.g. a
spread), used to drive the swing low negative. -/
def c4LowBar (d : Int) : Bar := ⟨d, -100, -90, -100, -95, 0⟩

/-- Six bars: previous five lows `-100`, current close `-50`. -/
def c4Bars : List Bar :=
  [c4LowBar 1, c4LowBar 2, c4LowBar 3, c4LowBar 4, c4LowBar 5,
   ⟨6, -50, -45, -55, -50, 0⟩]

/-- Claim C4 counterexample: with swing low `-100`, ATR `0` and multiplier
`5` the threshold is `-100` (non-positive), yet `check_overextended` still
computes `distance_pct` by dividing by the negative threshold (yielding
`-50`) and reports `is_overextended = true` (`-50 > -100`) with a valid
calculation — not the "distance undefined, overextension defaults to false"
behaviour the claim describes. -/
theorem c4_no_threshold_guard_counterexample :
    (check_overextended c4Bars (some 0) 5 5).threshold = some (-100) ∧
    (check_overextended c4Bars (some 0) 5 5).distance_pct = some (-50) ∧
    (check_overextended c4Bars (some 0) 5 5).is_overextended = true ∧
    (check_overextended c4Bars (some 0) 5 5).calculation_valid = true := by
  refine ⟨?_, ?_, ?_, ?_⟩ <;>
    first
      | (simp [check_overextended, c4Bars, c4LowBar, prevDaysData, recentData,
          listMin, listMax]
         norm_num)
      | (simp [check_overextended, c4Bars, c4LowBar, prevDaysData, recentData,
          listMin, listMax])

/-- Claim C4, amended: there is no guard for a zero-or-negative threshold.
When the computed threshold is negative, `distance_pct` is still computed by
dividing by that threshold and `is_overextended` is the plain comparison
`current_price > threshold`, which can be true. (At a threshold of exactly
zero the Python float division yields an infinity rather than a null.) -/
theorem c4_negative_threshold_still_computes (df : List Bar) (atr : ℚ)
    (lookback : Nat) (mult : ℚ) (hlb : 1 ≤ lookback)
    (hlen : lookback + 1 ≤ df.length) (thr cp : ℚ)
    (hthr : (check_overextended df (some atr) lookback mult).threshold = some thr)
    (hcp : (check_overextended df (some atr) lookback mult).current_price = some cp)
    (hneg : thr < 0) :
    (check_overextended df (some atr) lookback mult).distance_pct =
      some ((cp - thr) / thr * 100) ∧
    (check_overextended df (some atr) lookback mult).is_overextended =
      decide (cp > thr) := by
  obtain ⟨sl, sh, cp', hsl, hsh, hcp'⟩ := swing_fields_exist df lookback hlb hlen
  have heq := check_overextended_valid df atr lookback mult sl sh cp' hlen hsl hsh hcp'
  rw [heq] at hthr hcp ⊢
  injection hthr with h1
  injection hcp with h2
  subst h1
  subst h2
  exact ⟨rfl, rfl⟩

/-- Witness for `c4_negative_threshold_still_computes` on `c4Bars`. -/
theorem c4_negative_threshold_witness :
    (check_overextended c4Bars (some 0) 5 5).distance_pct =
      some (((-50 : ℚ) - (-100)) / (-100) * 100) ∧
    (check_overextended c4Bars (some 0) 5 5).is_overextended =
      decide ((-50 : ℚ) > (-100)) := by
  have h := c4_negative_threshold_still_computes c4Bars 0 5 5 (by decide)
    (by decide) (-100) (-50)
    (by simp [check_overextended, c4Bars, c4LowBar, prevDaysData,
          recentData, listMin, listMax])
    (by simp [check_overextended, c4Bars, c4LowBar, prevDaysData,
          recentData, listMin, listMax])
    (by norm_num)
  exact h

/-! ### Claim C5 — short series yields an invalid measurement -/

/-- Three one-point bars, fewer than `lookback + 1 = 6`. -/
def c5Bars : List Bar :=
  [⟨1, 1, 1, 1, 1, 0⟩, ⟨2, 1, 1, 1, 1, 0⟩, ⟨3, 1, 1, 1, 1, 0⟩]

/-- Claim C5 counterexample: with 3 bars and lookback 5 the measurement is
indeed invalid, but the `atr` field of the result is **not** null — it
echoes the ATR argument (`some 1` here), because the initial result dict
sets `'atr': atr_value`. -/
theorem c5_short_series_atr_echo_counterexample :
    (check_overextended c5Bars (some 1) 5 5).calculation_valid = false ∧
    (check_overextended c5Bars (some 1) 5 5).atr = some 1 ∧
    (some (1 : ℚ) ≠ (none : Option ℚ)) :=
  ⟨rfl, rfl, by decide⟩

/-- Claim C5, amended: for every series with fewer than `L + 1` bars,
`check_overextended` returns the invalid measurement: `calculation_valid`
and `is_overextended` are false and every numeric field is null **except**
`atr`, which echoes the ATR argument passed in. -/
theorem c5_short_series_invalid (df : List Bar) (atr_value : Option ℚ)
    (lookback : Nat) (mult : ℚ) (h : df.length < lookback + 1) :
    (check_overextended df atr_value lookback mult).calculation_valid = false ∧
    (check_overextended df atr_value lookback mult).is_overextended = false ∧
    (check_overextended df atr_value lookback mult).swing_low = none ∧
    (check_overextended df atr_value lookback mult).swing_high = none ∧
    (check_overextended df atr_value lookback mult).atr_contribution = none ∧
    (check_overextended df atr_value lookback mult).threshold = none ∧
    (check_overextended df atr_value lookback mult).current_price = none ∧
    (check_overextended df atr_value lookback mult).distance_from_threshold = none ∧
    (check_overextended df atr_value lookback mult).distance_pct = none ∧
    (check_overextended df atr_value lookback mult).proximity_pct = none ∧
    (check_overextended df atr_value lookback mult).price_range = none ∧
    (check_overextended df atr_value lookback mult).atr = atr_value := by
  unfold check_overextended
  rw [if_pos h]
  exact ⟨rfl, rfl, rfl, rfl, rfl, rfl, rfl, rfl, rfl, rfl, rfl, rfl⟩

/-- Witness for `c5_short_series_invalid`: 3 bars, lookback 5, ATR 1
(scenario C of the specification, plus the `atr` echo). -/
theorem c5_short_series_invalid_witness :
    (check_overextended c5Bars (some 1) 5 5).calculation_valid = false ∧
    (check_overextended c5Bars (some 1) 5 5).is_overextended = false ∧
    (check_overextended c5Bars (some 1) 5 5).swing_low = none ∧
    (check_overextended c5Bars (some 1) 5 5).swing_high = none ∧
    (check_overextended c5Bars (some 1) 5 5).atr_contribution = none ∧
    (check_overextended c5Bars (some 1) 5 5).threshold = none ∧
    (check_overextended c5Bars (some 1) 5 5).current_price = none ∧
    (check_overextended c5Bars (some 1) 5 5).distance_from_threshold = none ∧
    (check_overextended c5Bars (some 1) 5 5).distance_pct = none ∧
    (check_overextended c5Bars (some 1) 5 5).proximity_pct = none ∧
    (check_overextended c5Bars (some 1) 5 5).price_range = none ∧
    (check_overextended c5Bars (some 1) 5 5).atr = some 1 :=
  c5_short_series_invalid c5Bars (some 1) 5 5 (by decide)

/-! ### Claim C7 — proximity is always clamped to [0, 100] -/

/-- When the swing window is empty (no swing low), `check_overextended`
falls back to the initial result. -/
theorem check_overextended_min_none (df : List Bar) (atr_value : Option ℚ)
    (lookback : Nat) (mult : ℚ)
    (hlen : ¬ df.length < lookback + 1)
    (h : listMin ((prevDaysData df lookback).map Bar.low) = none) :
    check_overextended df atr_value lookback mult = emptyResult atr_value := by
  unfold check_overextended
  rw [if_neg hlen, h]

/-- Claim C7: whenever `proximity_pct` is defined it lies in `[0, 100]`;
moreover it equals the clamped travel ratio
`clamp((currentPrice - swingLow) / (threshold - swingLow) * 100, 0, 100)`
when `threshold > swingLow`, and `0` otherwise — regardless of how far the
current price sits below the swing low or above the threshold. -/
theorem c7_proximity_clamped (df : List Bar) (atr_value : Option ℚ)
    (lookback : Nat) (mult : ℚ) (p : ℚ)
    (hp : (check_overextended df atr_value lookback mult).proximity_pct = some p) :
    0 ≤ p ∧ p ≤ 100 ∧
    ∀ sl thr cp,
      (check_overextended df atr_value lookback mult).swing_low = some sl →
      (check_overextended df atr_value lookback mult).threshold = some thr →
      (check_overextended df atr_value lookback mult).current_price = some cp →
      (thr > sl → p = max 0 (min 100 ((cp - sl) / (thr - sl) * 100))) ∧
      (¬ thr > sl → p = 0) := by
  by_cases hlen : df.length < lookback + 1
  · rw [show check_overextended df atr_value lookback mult = emptyResult atr_value
        from by unfold check_overextended; rw [if_pos hlen]] at hp
    exact absurd hp (by simp [emptyResult])
  · have hlen' : lookback + 1 ≤ df.length := le_of_not_lt hlen
    cases hsl : listMin ((prevDaysData df lookback).map Bar.low) with
    | none =>
      rw [check_overextended_min_none df atr_value lookback mult hlen hsl] at hp
      exact absurd hp (by simp [emptyResult])
    | some sl0 =>
      have hprev : prevDaysData df lookback ≠ [] := by
        intro hnil
        rw [hnil] at hsl
        exact Option.noConfusion hsl
      have hdf : df.map Bar.close ≠ [] := by
        intro hnil
        have hnil' : df = [] := List.map_eq_nil_iff.mp hnil
        rw [hnil'] at hlen'
        exact absurd hlen' (by simp)
      obtain ⟨sh0, hsh⟩ := listMax_of_ne_nil ((prevDaysData df lookback).map Bar.high)
        (fun hnil => hprev (List.map_eq_nil_iff.mp hnil))
      have hcp : (df.map Bar.close).getLast? = some ((df.map Bar.close).getLast hdf) :=
        List.getLast?_eq_getLast_of_ne_nil hdf
      cases atr_value with
      | none =>
        rw [check_overextended_na df lookback mult sl0 sh0 _ hlen' hsl hsh hcp] at hp
        exact absurd hp (by simp [emptyResult])
      | some atr =>
        have heq := check_overextended_valid df atr lookback mult sl0 sh0 _
          hlen' hsl hsh hcp
        rw [heq] at hp ⊢
        injection hp with hp
        subst hp
        refine ⟨?_, ?_, ?_⟩
        · split
          · exact le_max_left 0 _
          · exact le_refl 0
        · split
          · exact max_le (by norm_num) (min_le_left _ _)
          · norm_num
        · intro sl thr cp h1 h2 h3
          injection h1 with h1
          injection h2 with h2
          injection h3 with h3
          subst h1
          subst h2
          subst h3
          constructor
          · intro hgt
            rw [if_pos hgt]
          · intro hng
            rw [if_neg hng]

/-- Six bars realizing scenario A of the specification: previous five lows
`[100, 95, 90, 92, 96]`, current close `106`. -/
def c7Bars : List Bar :=
  [⟨1, 100, 101, 100, 100, 0⟩, ⟨2, 95, 96, 95, 95, 0⟩, ⟨3, 90, 91, 90, 90, 0⟩,
   ⟨4, 92, 93, 92, 92, 0⟩, ⟨5, 96, 97, 96, 96, 0⟩, ⟨6, 106, 107, 105, 106, 0⟩]

/-- Witness for `c7_proximity_clamped` on scenario A (swing low 90,
threshold 105, close 106): the raw travel ratio exceeds 100 and the stored
proximity is clamped to 100. -/
theorem c7_proximity_clamped_witness :
    0 ≤ (100 : ℚ) ∧ (100 : ℚ) ≤ 100 ∧
    ∀ sl thr cp,
      (check_overextended c7Bars (some 3) 5 5).swing_low = some sl →
      (check_overextended c7Bars (some 3) 5 5).threshold = some thr →
      (check_overextended c7Bars (some 3) 5 5).current_price = some cp →
      (thr > sl → (100 : ℚ) = max 0 (min 100 ((cp - sl) / (thr - sl) * 100))) ∧
      (¬ thr > sl → (100 : ℚ) = 0) :=
  c7_proximity_clamped c7Bars (some 3) 5 5 100
    (by simp [check_overextended, c7Bars, prevDaysData, recentData,
          listMin, listMax]
        norm_num [min_def, max_def])

/-! ### Claim C10 — undefined ATR on a long-enough series -/

/-- Claim C10: with at least `L + 1` bars but a missing/NaN ATR,
`check_overextended` returns an invalid, non-overextended measurement whose
price-derived fields (`swing_low`, `swing_high`, `current_price`,
`price_range`) are populated from the series, while every threshold-derived
field stays null. -/
theorem c10_na_atr_partial_result (df : List Bar) (lookback : Nat) (mult : ℚ)
    (hlb : 1 ≤ lookback) (hlen : lookback + 1 ≤ df.length) :
    (check_overextended df none lookback mult).calculation_valid = false ∧
    (check_overextended df none lookback mult).is_overextended = false ∧
    (check_overextended df none lookback mult).swing_low =
      listMin ((prevDaysData df lookback).map Bar.low) ∧
    (check_overextended df none lookback mult).swing_high =
      listMax ((prevDaysData df lookback).map Bar.high) ∧
    (check_overextended df none lookback mult).current_price =
      (df.map Bar.close).getLast? ∧
    (check_overextended df none lookback mult).price_range.isSome = true ∧
    (check_overextended df none lookback mult).atr_contribution = none ∧
    (check_overextended df none lookback mult).threshold = none ∧
    (check_overextended df none lookback mult).distance_from_threshold = none ∧
    (check_overextended df none lookback mult).distance_pct = none ∧
    (check_overextended df none lookback mult).proximity_pct = none := by
  obtain ⟨sl, sh, cp, hsl, hsh, hcp⟩ := swing_fields_exist df lookback hlb hlen
  rw [check_overextended_na df lookback mult sl sh cp hlen hsl hsh hcp,
    hsl, hsh, hcp]
  exact ⟨rfl, rfl, rfl, rfl, rfl, rfl, rfl, rfl, rfl, rfl, rfl⟩

/-- Witness for `c10_na_atr_partial_result` on the scenario-A bars with a
missing ATR. -/
theorem c10_na_atr_partial_result_witness :
    (check_overextended c7Bars none 5 5).calculation_valid = false ∧
    (check_overextended c7Bars none 5 5).is_overextended = false ∧
    (check_overextended c7Bars none 5 5).swing_low =
      listMin ((prevDaysData c7Bars 5).map Bar.low) ∧
    (check_overextended c7Bars none 5 5).swing_high =
      listMax ((prevDaysData c7Bars 5).map Bar.high) ∧
    (check_overextended c7Bars none 5 5).current_price =
      (c7Bars.map Bar.close).getLast? ∧
    (check_overextended c7Bars none 5 5).price_range.isSome = true ∧
    (check_overextended c7Bars none 5 5).atr_contribution = none ∧
    (check_overextended c7Bars none 5 5).threshold = none ∧
    (check_overextended c7Bars none 5 5).distance_from_threshold = none ∧
    (check_overextended c7Bars none 5 5).distance_pct = none ∧
    (check_overextended c7Bars none 5 5).proximity_pct = none :=
  c10_na_atr_partial_result c7Bars 5 5 (by decide) (by decide)

/-! ### Claim C6 — extreme check on short or NaN-padded windows -/

/-- Five oscillator samples of which only the last is valid (the `ta`
library leaves the warm-up prefix NaN). -/
def c6Series : List (Option ℚ) := [none, none, none, none, some 95]

/-- Claim C6 counterexample: `c6Series` has 5 samples but only **one** valid
(non-NaN) sample, fewer than the lookback `N = 5`; the guard only counts raw
length, so `check_rsi_extremes` still reports `hit_high = true` from that
single valid sample — an extreme from a window of fewer than `N` valid
samples. -/
theorem c6_short_valid_window_counterexample :
    check_rsi_extremes c6Series 5 90 10 = (true, false, some 95, some 95) ∧
    (dropNa c6Series).length = 1 ∧ (1 : Nat) < 5 := by
  refine ⟨?_, by simp [dropNa, c6Series], by decide⟩
  simp [check_rsi_extremes, c6Series, dropNa, listMax, listMin]
  norm_num

/-- Claim C6, amended: the no-extreme guard is driven by the **raw** sample
count (NaN included), not the valid-sample count: if the series holds fewer
than `N` samples counting NaN ones, or no valid sample at all, both
directions report no extreme; a series with at least `N` raw samples can
report an extreme from fewer than `N` valid samples. -/
theorem c6_no_extreme_on_short_raw_series (rsi_series : List (Option ℚ))
    (lookback_days : Nat) (high_threshold low_threshold : ℚ)
    (h : rsi_series.length < lookback_days ∨ dropNa rsi_series = []) :
    check_rsi_extremes rsi_series lookback_days high_threshold low_threshold =
      (false, false, none, none) := by
  unfold check_rsi_extremes
  rcases h with h | h
  · rw [if_pos h]
  · by_cases hlen : rsi_series.length < lookback_days
    · rw [if_pos hlen]
    · rw [if_neg hlen, h]
      simp [listMax]

/-- Witness for `c6_no_extreme_on_short_raw_series`: one valid sample,
lookback 5. -/
theorem c6_no_extreme_witness :
    check_rsi_extremes [some 50] 5 90 10 = (false, false, none, none) :=
  c6_no_extreme_on_short_raw_series [some 50] 5 90 10 (Or.inl (by decide))

/-! ### Claim C8 — per-instrument failure isolation in `scan_symbol` -/

/-- Claim C8: `scan_symbol` is total and never re-raises: whatever the
fallible sub-steps do, it returns a result row; when any step of the `try`
body raises `e`, the row is the error row whose status string
`"error:" ++ e` records the failure, so no per-instrument error can
terminate the scan cycle over the remaining instruments. -/
theorem c8_scan_symbol_isolates_failures (symbol : String) (env : ScanEnv) :
    (∀ e, scan_symbol_body symbol env = .error e →
      scan_symbol symbol env = errorRow symbol e ∧
      (scan_symbol symbol env).status = "error:" ++ e) ∧
    (∀ r, scan_symbol_body symbol env = .ok r →
      scan_symbol symbol env = r) := by
  constructor
  · intro e he
    unfold scan_symbol
    rw [he]
    exact ⟨rfl, rfl⟩
  · intro r hr
    unfold scan_symbol
    rw [hr]

/-- An environment whose historical-data fetch raises. -/
def c8EnvBoom : ScanEnv :=
  ⟨.error "boom", .ok ⟨none, none, none⟩, .ok (), .ok (), false⟩

/-- Witness for `c8_scan_symbol_isolates_failures`: a raising fetch yields
the error row, not an exception. -/
theorem c8_scan_symbol_isolates_failures_witness :
    scan_symbol "SPY" c8EnvBoom = errorRow "SPY" "boom" ∧
    (scan_symbol "SPY" c8EnvBoom).status = "error:" ++ "boom" :=
  (c8_scan_symbol_isolates_failures "SPY" c8EnvBoom).1 "boom" rfl

/-! ### Claim C9 — cache sufficiency threshold -/

/-- A store whose `"SPY"` metadata is fresh at `now = 100` and which holds
17 bars (dates 84…100) inside the required window `[70, 100]`. -/
def c9Store : Store :=
  ⟨(List.range 17).map (fun i => ⟨"SPY", 84 + (i : Int), 1, 1, 1, 1, 0⟩),
   [⟨"SPY", 100, some 100, 17⟩]⟩

/-- Claim C9 counterexample: 17 cached bars are at least
`max(oscillatorWindow, volatilityWindow) + 1 = 15`, so the claim predicts no
fetch; `should_fetch_data` nevertheless demands one, because its threshold
is the fixed constant 20. -/
theorem c9_fixed_twenty_counterexample :
    is_data_fresh c9Store "SPY" 100 = true ∧
    (get_cached_price_data c9Store "SPY" 70 100).length = 17 ∧
    should_fetch_data c9Store "SPY" 100 = true ∧
    ¬((17 : Nat) < max RSI_WINDOW ATR_WINDOW + 1) :=
  ⟨rfl, rfl, rfl, by decide⟩

/-- Claim C9, amended: for a fresh instrument, a fetch is required exactly
when the cached bar count in the required window is below the **hardcoded
constant 20** ("Need at least 20 days for RSI"), independent of the
configured `RSI_WINDOW`/`ATR_WINDOW`. -/
theorem c9_sufficiency_threshold_is_twenty (store : Store) (symbol : String)
    (now : Int) (hfresh : is_data_fresh store symbol now = true) :
    should_fetch_data store symbol now =
      decide ((get_cached_price_data store symbol (now - HIST_DAYS) now).length
        < 20) := by
  have key : ∀ x : List PriceRow,
      (if (x.isEmpty || decide (x.length < 20)) = true then true else false) =
        decide (x.length < 20) := by
    intro x
    cases x with
    | nil => simp
    | cons a l => simp [List.isEmpty]
  unfold should_fetch_data
  rw [hfresh]
  simp only [Bool.not_true, Bool.false_eq_true, if_false, get_required_data_range]
  exact key _

/-- Witness for `c9_sufficiency_threshold_is_twenty` on the fresh 17-bar
store. -/
theorem c9_sufficiency_threshold_witness :
    should_fetch_data c9Store "SPY" 100 =
      decide ((get_cached_price_data c9Store "SPY" (100 - HIST_DAYS) 100).length
        < 20) :=
  c9_sufficiency_threshold_is_twenty c9Store "SPY" 100 rfl
